import Mathlib

/-!
Verification of the clearance_stud repository's tag-linking / clearance core.

The repository is a FastAPI + SQLAlchemy backend.  The embedding below is a
shallow model of its data layer: each database table becomes a list of
records inside a `DB` value, each CRUD function becomes a pure Lean function
from a `DB` (plus an ambient clock `now : Nat` standing for
`datetime.utcnow()`) to a result together with the successor `DB`.  An
operation that raises `fastapi.HTTPException` returns `Except.error` carrying
the status code and detail; the paired `DB` is the store after the call (the
store is unchanged on the paths where the Python code raises before any
commit).

The repository contains several iterative rewrites of the same design living
side by side (`src/crud.py` and the `src/crud/` package).  Where a claim
cites two variants, both are embedded, each in a namespace named after its
module: `crud` for `src/crud.py`, `crud_users` for `src/crud/users.py`,
`tag_linking` for `src/crud/tag_linking.py`, `database` for
`src/database.py`, `auth` for `src/auth.py`, and `routers_*` for the files
under `src/routers/`.
-/

namespace ClearanceStud

/-- `fastapi.HTTPException`: a status code and a detail message. -/
structure HTTPException where
  status_code : Nat
  detail : String
deriving DecidableEq, Repr

/-- `models.UserRole` (src/models.py). -/
inductive UserRole where
  | STUDENT
  | STAFF
  | ADMIN
deriving DecidableEq, Repr

/-- `models.ClearanceStatusEnum` (src/models.py). -/
inductive ClearanceStatusEnum where
  | COMPLETED
  | NOT_COMPLETED
  | PENDING
deriving DecidableEq, Repr

/-- `models.ClearanceDepartment` (src/models.py): the department enumeration. -/
inductive ClearanceDepartment where
  | DEPARTMENTAL
  | LIBRARY
  | BURSARY
  | ALUMNI
deriving DecidableEq, Repr

/-- `models.TargetUserType` (src/models.py). -/
inductive TargetUserType where
  | STUDENT
  | STAFF_ADMIN
deriving DecidableEq, Repr

/-- `models.OverallClearanceStatusEnum` (src/models.py). -/
inductive OverallClearanceStatusEnum where
  | COMPLETED
  | PENDING
deriving DecidableEq, Repr

/-- ORM model `models.Student` (src/models.py).  `models.py` does not give
Student an `is_active` column, but the sync `crud.get_student_by_tag_id`
(src/crud.py lines 376-377) filters on `Student.is_active`, so the embedding
carries the flag. -/
structure Student where
  id : Nat
  student_id : String
  name : String
  email : Option String
  department : String
  tag_id : Option String
  is_active : Bool
  created_at : Nat
deriving DecidableEq, Repr

/-- ORM model `models.User` (src/models.py): staff/admin accounts. -/
structure User where
  id : Nat
  username : String
  role : UserRole
  department : Option ClearanceDepartment
  tag_id : Option String
  is_active : Bool
  created_at : Nat
deriving DecidableEq, Repr

/-- ORM model `models.ClearanceStatus` (src/models.py): one row per
(student, department). -/
structure ClearanceStatus where
  id : Nat
  student_id : String
  department : ClearanceDepartment
  status : ClearanceStatusEnum
  remarks : Option String
  cleared_by : Option Nat
  updated_at : Nat
  created_at : Nat
deriving DecidableEq, Repr

/-- ORM model `models.Device` (src/models.py). -/
structure Device where
  id : Nat
  device_id : String
  location : Option String
  api_key : String
  is_active : Bool
  last_seen : Option Nat
deriving DecidableEq, Repr

/-- ORM model `models.PendingTagLink` (src/models.py): a short-lived intent
binding a device (by its primary key, column `device_id_fk`) to a target
identity. -/
structure PendingTagLink where
  id : Nat
  device_id_fk : Nat
  target_user_type : TargetUserType
  target_identifier : String
  initiated_by_user_id : Nat
  created_at : Nat
  expires_at : Nat
deriving DecidableEq, Repr

/-- The pending-link rows as the functions of `src/crud.py` (lines 423-470)
address them: those functions construct and filter on a `device_api_key`
attribute that `models.PendingTagLink` in `models.py` does not define, so the
rows that variant manipulates live in their own table shaped after its
accesses. -/
structure ApiKeyPendingTagLink where
  id : Nat
  device_api_key : String
  target_user_type : TargetUserType
  target_identifier : String
  initiated_by_user_id : Nat
  expires_at : Nat
deriving DecidableEq, Repr

/-- The backing store: one list per table.  `pending_tag_links` holds the
`models.PendingTagLink` rows (used by `src/crud/tag_linking.py` and the
device router); `api_key_pending_tag_links` holds the rows addressed by the
`device_api_key`-keyed functions of `src/crud.py`. -/
structure DB where
  students : List Student
  users : List User
  clearance_statuses : List ClearanceStatus
  devices : List Device
  pending_tag_links : List PendingTagLink
  api_key_pending_tag_links : List ApiKeyPendingTagLink
deriving DecidableEq, Repr

/-- SQLAlchemy's `query(...).filter(p).first()` followed by a mutation of the
returned object and `commit()`: the first element satisfying `p` is replaced
by `f` of it, the rest untouched. -/
def updateFirst (p : α → Bool) (f : α → α) : List α → List α
  | [] => []
  | x :: xs => if p x then f x :: xs else x :: updateFirst p f xs

/-- `db.delete(obj)` of the first element satisfying `p` (the object a
preceding `.first()` query returned). -/
def removeFirst (p : α → Bool) : List α → List α
  | [] => []
  | x :: xs => if p x then xs else x :: removeFirst p xs

namespace crud

/-- `crud.get_user_by_tag_id(db, tag_id)` (src/crud.py lines 373-374): the
first active user holding the tag. -/
def get_user_by_tag_id (db : DB) (tag_id : String) : Option User :=
  db.users.find? (fun u => u.tag_id == some tag_id && u.is_active)

/-- `crud.get_student_by_tag_id(db, tag_id)` (src/crud.py lines 376-377). -/
def get_student_by_tag_id (db : DB) (tag_id : String) : Option Student :=
  db.students.find? (fun s => s.tag_id == some tag_id && s.is_active)

/-- `crud.is_tag_id_unique(db, tag_id)` (src/crud.py lines 379-382): true iff
no user and no student row holds the tag. -/
def is_tag_id_unique (db : DB) (tag_id : String) : Bool :=
  (db.users.find? (fun u => u.tag_id == some tag_id)).isNone &&
  (db.students.find? (fun s => s.tag_id == some tag_id)).isNone

/-- `crud.update_student_tag_id(db, student_id, new_tag_id)` (src/crud.py
lines 384-392): 409 unless the tag is globally unique, else set the first
matching student's tag (returning `none` without error when the student is
absent, as the Python returns `None`). -/
def update_student_tag_id (db : DB) (student_id new_tag_id : String) :
    Except HTTPException (Option Student) × DB :=
  if !is_tag_id_unique db new_tag_id then
    (.error ⟨409, "Tag ID already in use by another user or student."⟩, db)
  else
    match db.students.find? (fun s => s.student_id == student_id) with
    | none => (.ok none, db)
    | some s =>
      (.ok (some { s with tag_id := some new_tag_id }),
       { db with students :=
          (updateFirst (fun t => t.student_id == student_id)
            (fun t => { t with tag_id := some new_tag_id }) db.students) })

/-- `crud.update_user_tag_id(db, username, new_tag_id)` (src/crud.py lines
394-402): the user-side twin of `update_student_tag_id`. -/
def update_user_tag_id (db : DB) (username new_tag_id : String) :
    Except HTTPException (Option User) × DB :=
  if !is_tag_id_unique db new_tag_id then
    (.error ⟨409, "Tag ID already in use by another user or student."⟩, db)
  else
    match db.users.find? (fun u => u.username == username) with
    | none => (.ok none, db)
    | some u =>
      (.ok (some { u with tag_id := some new_tag_id }),
       { db with users :=
          (updateFirst (fun t => t.username == username)
            (fun t => { t with tag_id := some new_tag_id }) db.users) })

/-- `crud.get_device_by_api_key(db, api_key)` (src/crud.py lines 413-414):
the first active device with the key. -/
def get_device_by_api_key (db : DB) (api_key : String) : Option Device :=
  db.devices.find? (fun d => d.api_key == api_key && d.is_active)

/-- `crud.get_student_by_student_id(student_id)` (src/crud.py lines 43-46),
as the sync call sites use it: lookup by the `student_id` column. -/
def get_student_by_student_id (db : DB) (student_id : String) : Option Student :=
  db.students.find? (fun s => s.student_id == student_id)

/-- `crud.create_pending_tag_link(db, device_api_key, target_user_type,
target_identifier, initiated_by_user_id, expires_in_minutes)` (src/crud.py
lines 423-464).  Notable quirks kept as written: the STAFF_ADMIN branch
resolves its target with `get_user_by_tag_id(db, target_identifier)` (lookup
by tag, despite the neighbouring comment about usernames), and the
one-unexpired-link-per-device check filters on `device_api_key` with
`expires_at > datetime.utcnow()`.  `new_id` stands for the autoincremented
primary key. -/
def create_pending_tag_link (db : DB) (now : Nat) (device_api_key : String)
    (target_user_type : TargetUserType) (target_identifier : String)
    (initiated_by_user_id : Nat) (expires_in_minutes : Nat) (new_id : Nat) :
    Except HTTPException ApiKeyPendingTagLink × DB :=
  match get_device_by_api_key db device_api_key with
  | none => (.error ⟨404, "Device not found or inactive."⟩, db)
  | some _device =>
    let target_check : Except HTTPException Unit :=
      match target_user_type with
      | .STUDENT =>
        match get_student_by_student_id db target_identifier with
        | none => .error ⟨404, "Student not found."⟩
        | some student =>
          if student.tag_id.isSome then
            .error ⟨409, "Student already has a tag linked."⟩
          else .ok ()
      | .STAFF_ADMIN =>
        match get_user_by_tag_id db target_identifier with
        | none => .error ⟨404, "User not found."⟩
        | some user =>
          if user.tag_id.isSome then
            .error ⟨409, "User already has a tag linked."⟩
          else .ok ()
    match target_check with
    | .error e => (.error e, db)
    | .ok _ =>
      match db.api_key_pending_tag_links.find?
          (fun l => l.device_api_key == device_api_key && decide (now < l.expires_at)) with
      | some _ =>
        (.error ⟨409, "Device is already waiting for a tag scan for another user."⟩, db)
      | none =>
        let db_pending_link : ApiKeyPendingTagLink :=
          { id := new_id
            device_api_key := device_api_key
            target_user_type := target_user_type
            target_identifier := target_identifier
            initiated_by_user_id := initiated_by_user_id
            expires_at := now + expires_in_minutes * 60 }
        (.ok db_pending_link,
         { db with api_key_pending_tag_links :=
            db.api_key_pending_tag_links ++ [db_pending_link] })

/-- `crud.get_pending_tag_link_by_device_api_key(db, device_api_key)`
(src/crud.py lines 466-470): the unexpired link for the key. -/
def get_pending_tag_link_by_device_api_key (db : DB) (now : Nat)
    (device_api_key : String) : Option ApiKeyPendingTagLink :=
  db.api_key_pending_tag_links.find?
    (fun l => l.device_api_key == device_api_key && decide (now < l.expires_at))

/-- `crud.delete_pending_tag_link(db, pending_link_id)` (src/crud.py lines
472-477): fetch by primary key, delete if present.  The device router applies
it to `models.PendingTagLink` rows, and the filter involves only the primary
key, so it is embedded over the `pending_tag_links` table. -/
def delete_pending_tag_link (db : DB) (pending_link_id : Nat) :
    Option PendingTagLink × DB :=
  match db.pending_tag_links.find? (fun l => l.id == pending_link_id) with
  | none => (none, db)
  | some l =>
    (some l,
     { db with pending_tag_links :=
        removeFirst (fun x => x.id == pending_link_id) db.pending_tag_links })

/-- `crud.update_device_last_seen(db, device_id)` (src/crud/devices.py lines
18-21): an UPDATE by device primary key. -/
def update_device_last_seen (db : DB) (now : Nat) (device_id : Nat) : DB :=
  { db with devices :=
      db.devices.map (fun d =>
        if d.id == device_id then { d with last_seen := some now } else d) }

/-- `crud.get_clearance_statuses_by_student_id(db, student_id)`
(src/crud/clearance.py lines 10-14): every clearance row of the student. -/
def get_clearance_statuses_by_student_id (db : DB) (student_id : String) :
    List ClearanceStatus :=
  db.clearance_statuses.filter (fun c => c.student_id == student_id)

/-- Modelled from the spec: `crud.get_active_pending_tag_link_by_device_pk`
is called by `submit_scanned_tag_endpoint` (src/routers/devices.py line 132)
but defined nowhere in the repository's files.  Spec section 4.4 submit step 2:
"Look up the single unexpired PendingTagLink for that device", the device
being identified by its primary key and lazy expiry filtering on the expiry
timestamp. -/
def get_active_pending_tag_link_by_device_pk (db : DB) (now : Nat)
    (device_pk : Nat) : Option PendingTagLink :=
  db.pending_tag_links.find?
    (fun l => l.device_id_fk == device_pk && decide (now < l.expires_at))

/-- Modelled from the spec: `crud.check_tag_id_globally_unique_for_target` is
called by `submit_scanned_tag_endpoint` (src/routers/devices.py line 144) but
defined nowhere in the repository's files.  Spec section 4.4 submit step 3:
"Re-check the global tag-uniqueness invariant for scannedTagId"; the router
passes `None` for the target's primary key, which per its own comment means
the check runs "against ALL existing" rows, raising `Conflict` whenever any
student or user already holds the tag. -/
def check_tag_id_globally_unique_for_target (db : DB) (tag_id : String) :
    Except HTTPException Unit :=
  if (db.students.find? (fun s => s.tag_id == some tag_id)).isSome ||
     (db.users.find? (fun u => u.tag_id == some tag_id)).isSome then
    .error ⟨409, "Tag ID already in use."⟩
  else
    .ok ()

end crud

namespace crud_users

/-- `crud.users.get_user_by_username(db, username)` (src/crud/users.py lines
13-17). -/
def get_user_by_username (db : DB) (username : String) : Option User :=
  db.users.find? (fun u => u.username == username)

/-- `crud.users.get_user_by_tag_id(db, tag_id)` (src/crud/users.py lines
31-35): unlike the src/crud.py variant, no `is_active` filter. -/
def get_user_by_tag_id (db : DB) (tag_id : String) : Option User :=
  db.users.find? (fun u => u.tag_id == some tag_id)

/-- `crud.users.update_user_tag_id(db, username, new_tag_id)`
(src/crud/users.py lines 37-62): rejects (400) a tag held by another user,
404 when the user is absent, else sets the tag.  The students table is never
consulted. -/
def update_user_tag_id (db : DB) (username new_tag_id : String) :
    Except HTTPException User × DB :=
  match get_user_by_tag_id db new_tag_id with
  | some _ => (.error ⟨400, "Tag ID is already assigned to another user."⟩, db)
  | none =>
    match get_user_by_username db username with
    | none => (.error ⟨404, "User not found."⟩, db)
    | some user =>
      (.ok { user with tag_id := some new_tag_id },
       { db with users :=
          (updateFirst (fun u => u.username == username)
            (fun u => { u with tag_id := some new_tag_id }) db.users) })

/-- `crud.users.delete_user(db, username_to_delete, current_admin)`
(src/crud/users.py lines 150-189): forbids self-deletion and deletion of the
last admin, nulls `cleared_by` references, removes the user's pending links,
then deletes the user. -/
def delete_user (db : DB) (username_to_delete : String) (current_admin : User) :
    Except HTTPException User × DB :=
  if username_to_delete == current_admin.username then
    (.error ⟨403, "Admins cannot delete their own account."⟩, db)
  else
    match get_user_by_username db username_to_delete with
    | none => (.error ⟨404, "User not found."⟩, db)
    | some user_to_delete =>
      if user_to_delete.role == UserRole.ADMIN &&
         decide ((db.users.filter (fun u => u.role == UserRole.ADMIN)).length ≤ 1) then
        (.error ⟨403, "Cannot delete the last remaining admin account."⟩, db)
      else
        let db1 : DB :=
          { db with clearance_statuses :=
              db.clearance_statuses.map (fun c =>
                if c.cleared_by == some user_to_delete.id then
                  { c with cleared_by := none }
                else c) }
        let db2 : DB :=
          { db1 with pending_tag_links :=
              (db1.pending_tag_links.filter
                (fun l => l.initiated_by_user_id != user_to_delete.id)) }
        let db3 : DB :=
          { db2 with users :=
              (removeFirst (fun u => u.username == username_to_delete) db2.users) }
        (.ok user_to_delete, db3)

end crud_users

namespace tag_linking

/-- `crud.tag_linking.create_pending_tag_link(db, link_details,
initiated_by_id, expires_at)` (src/crud/tag_linking.py lines 9-27): resolves
the device by its hardware id and, when found, unconditionally inserts the
new pending link — no check for an existing unexpired link of the device.
`new_id` stands for the autoincremented key, `now` for the `created_at`
column default. -/
def create_pending_tag_link (db : DB) (now : Nat) (device_identifier : String)
    (target_user_type : TargetUserType) (target_identifier : String)
    (initiated_by_id : Nat) (expires_at : Nat) (new_id : Nat) :
    Option PendingTagLink × DB :=
  match db.devices.find? (fun d => d.device_id == device_identifier) with
  | none => (none, db)
  | some device =>
    let new_link : PendingTagLink :=
      { id := new_id
        device_id_fk := device.id
        target_user_type := target_user_type
        target_identifier := target_identifier
        initiated_by_user_id := initiated_by_id
        created_at := now
        expires_at := expires_at }
    (some new_link,
     { db with pending_tag_links := db.pending_tag_links ++ [new_link] })

end tag_linking

end ClearanceStud

namespace ClearanceStud

/-- Pydantic `models.StudentCreate` (src/models.py). -/
structure StudentCreate where
  student_id : String
  name : String
  email : Option String
  department : String
  tag_id : Option String
deriving DecidableEq, Repr

/-- Pydantic `models.ClearanceStatusCreate` (src/models.py). -/
structure ClearanceStatusCreate where
  student_id : String
  department : ClearanceDepartment
  status : ClearanceStatusEnum
  remarks : Option String
deriving DecidableEq, Repr

/-- Pydantic `models.ClearanceStatusItem` (src/models.py). -/
structure ClearanceStatusItem where
  department : ClearanceDepartment
  status : ClearanceStatusEnum
  remarks : Option String
  updated_at : Nat
deriving DecidableEq, Repr

/-- Pydantic `models.ClearanceDetail` (src/models.py): the clearance payload
returned for a student. -/
structure ClearanceDetail where
  student_id : String
  name : String
  department : String
  clearance_items : List ClearanceStatusItem
  overall_status : OverallClearanceStatusEnum
deriving DecidableEq, Repr

/-- Pydantic `models.UserResponse` (src/models.py): a staff/admin profile
without the password hash. -/
structure UserResponse where
  id : Nat
  username : String
  role : UserRole
  department : Option ClearanceDepartment
  tag_id : Option String
  is_active : Bool
  created_at : Nat
deriving DecidableEq, Repr

/-- `models.UserResponse.from_orm` as Pydantic performs it: copy the exposed
columns. -/
def UserResponse.from_orm (u : User) : UserResponse :=
  { id := u.id
    username := u.username
    role := u.role
    department := u.department
    tag_id := u.tag_id
    is_active := u.is_active
    created_at := u.created_at }

namespace database

/-- One row inserted by `initialize_student_clearance_statuses`
(src/database.py lines 132-147): the table defaults give `NOT_COMPLETED`
status, no remarks, no `cleared_by`, and `now` timestamps; `id` is the
autoincremented key. -/
def clearance_row (now : Nat) (student_id : String)
    (dept : ClearanceDepartment) (id : Nat) : ClearanceStatus :=
  { id := id
    student_id := student_id
    department := dept
    status := ClearanceStatusEnum.NOT_COMPLETED
    remarks := none
    cleared_by := none
    updated_at := now
    created_at := now }

/-- `database.initialize_student_clearance_statuses(student_id)`
(src/database.py lines 132-147): one insert per department of the listed
enumeration (DEPARTMENTAL, LIBRARY, BURSARY, ALUMNI), each row defaulting to
`NOT_COMPLETED`.  `fresh_id` numbers the autoincremented keys. -/
def initialize_student_clearance_statuses (db : DB) (now : Nat)
    (student_id : String) (fresh_id : Nat) : DB :=
  { db with clearance_statuses :=
      db.clearance_statuses ++
        [clearance_row now student_id ClearanceDepartment.DEPARTMENTAL fresh_id,
         clearance_row now student_id ClearanceDepartment.LIBRARY (fresh_id + 1),
         clearance_row now student_id ClearanceDepartment.BURSARY (fresh_id + 2),
         clearance_row now student_id ClearanceDepartment.ALUMNI (fresh_id + 3)] }

end database

namespace crud

/-- `crud.create_student(student)` (src/crud.py lines 19-36): insert the
student row (the insert sets student_id, name, department, tag_id and
created_at), then initialize the default clearance statuses for all
departments.  `last_record_id` and `fresh_status_id` stand for the
autoincremented keys. -/
def create_student (db : DB) (now : Nat) (student : StudentCreate)
    (last_record_id : Nat) (fresh_status_id : Nat) : Student × DB :=
  let row : Student :=
    { id := last_record_id
      student_id := student.student_id
      name := student.name
      email := none
      department := student.department
      tag_id := student.tag_id
      is_active := true
      created_at := now }
  let db1 : DB := { db with students := db.students ++ [row] }
  let db2 : DB :=
    database.initialize_student_clearance_statuses db1 now student.student_id fresh_status_id
  (row, db2)

/-- `crud.create_or_update_clearance_status(status_data, cleared_by_user_id)`
(src/crud.py lines 95-143): update every row matching (student, department)
in place when one exists, else insert a fresh row. -/
def create_or_update_clearance_status (db : DB) (now : Nat)
    (status_data : ClearanceStatusCreate) (cleared_by_user_id : Option Nat)
    (new_id : Nat) : ClearanceStatus × DB :=
  match db.clearance_statuses.find?
      (fun c => c.student_id == status_data.student_id &&
                c.department == status_data.department) with
  | some existing_status =>
    let updated : ClearanceStatus :=
      { existing_status with
          status := status_data.status
          remarks := status_data.remarks
          cleared_by := cleared_by_user_id
          updated_at := now }
    (updated,
     { db with clearance_statuses :=
        (db.clearance_statuses.map (fun c =>
          if c.student_id == status_data.student_id &&
             c.department == status_data.department then
            { c with
                status := status_data.status
                remarks := status_data.remarks
                cleared_by := cleared_by_user_id
                updated_at := now }
          else c)) })
  | none =>
    let row : ClearanceStatus :=
      { id := new_id
        student_id := status_data.student_id
        department := status_data.department
        status := status_data.status
        remarks := status_data.remarks
        cleared_by := cleared_by_user_id
        updated_at := now
        created_at := now }
    (row, { db with clearance_statuses := db.clearance_statuses ++ [row] })

end crud

namespace auth

/-- `auth.verify_department_access(user_role, user_department,
target_department)` (src/auth.py lines 196-205): admins pass, staff pass
exactly when their department equals the target, every other role fails
(a `None` department never equals a department value, as in Python). -/
def verify_department_access (user_role : UserRole)
    (user_department : Option ClearanceDepartment)
    (target_department : ClearanceDepartment) : Bool :=
  if user_role == UserRole.ADMIN then
    true
  else if user_role == UserRole.STAFF then
    user_department == some target_department
  else
    false

/-- `auth.get_verified_device(x_api_key)` (src/auth.py lines 104-121): the
device-credential scheme.  An empty header is falsy in Python, hence the
first branch. -/
def get_verified_device (db : DB) (x_api_key : String) :
    Except HTTPException Device :=
  if x_api_key == "" then
    .error ⟨401, "Missing API key"⟩
  else
    match crud.get_device_by_api_key db x_api_key with
    | none => .error ⟨401, "Invalid API Key."⟩
    | some device_orm =>
      if !device_orm.is_active then
        .error ⟨403, "Device is not active."⟩
      else
        .ok device_orm

end auth

namespace routers_devices

/-- One iteration of the `for status_orm in statuses_orm_list` loop of
`_format_clearance_for_device_scan` (src/routers/devices.py lines 47-56):
append the item and set `overall_status_val` to `PENDING` when the item's
status is not `COMPLETED`. -/
def clearance_fold_step
    (acc : List ClearanceStatusItem × OverallClearanceStatusEnum)
    (status_orm : ClearanceStatus) :
    List ClearanceStatusItem × OverallClearanceStatusEnum :=
  let item : ClearanceStatusItem :=
    { department := status_orm.department
      status := status_orm.status
      remarks := status_orm.remarks
      updated_at := status_orm.updated_at }
  (acc.1 ++ [item],
   if item.status != ClearanceStatusEnum.COMPLETED then
     OverallClearanceStatusEnum.PENDING
   else acc.2)

/-- The loop of `_format_clearance_for_device_scan` (src/routers/devices.py
lines 41-59) over the fetched status rows: `overall_status_val` starts
`COMPLETED`, is set `PENDING` when the list is empty, is set `PENDING` by any
item whose status is not `COMPLETED`, and the final empty-list guard (dead
after the first) is kept as written. -/
def clearance_items_and_overall (statuses_orm_list : List ClearanceStatus) :
    List ClearanceStatusItem × OverallClearanceStatusEnum :=
  let overall_start :=
    if statuses_orm_list.isEmpty then OverallClearanceStatusEnum.PENDING
    else OverallClearanceStatusEnum.COMPLETED
  let pair := statuses_orm_list.foldl clearance_fold_step ([], overall_start)
  let overall_final :=
    if statuses_orm_list.isEmpty && pair.2 == OverallClearanceStatusEnum.COMPLETED then
      OverallClearanceStatusEnum.PENDING
    else pair.2
  (pair.1, overall_final)

/-- `_format_clearance_for_device_scan(db, student_orm)`
(src/routers/devices.py lines 32-67): fetch the student's clearance rows and
assemble the `ClearanceDetail`. -/
def _format_clearance_for_device_scan (db : DB) (student_orm : Student) :
    ClearanceDetail :=
  let statuses_orm_list :=
    crud.get_clearance_statuses_by_student_id db student_orm.student_id
  let pair := clearance_items_and_overall statuses_orm_list
  { student_id := student_orm.student_id
    name := student_orm.name
    department := student_orm.department
    clearance_items := pair.1
    overall_status := pair.2 }

/-- `scan_tag_endpoint` (src/routers/devices.py lines 69-116): after the
device-identity check and the last-seen touch, a student match returns the
full clearance detail; otherwise the user lookup at lines 107-110 feeds only
the device log and the call fails 404 whether or not a staff/admin user holds
the tag. -/
def scan_tag_endpoint (db : DB) (now : Nat) (verified_device_orm : Device)
    (scan_data_device_id scan_data_tag_id : String) :
    Except HTTPException ClearanceDetail × DB :=
  if verified_device_orm.device_id != scan_data_device_id then
    (.error ⟨403, "Device identity mismatch. API key valid, but payload device_id differs."⟩, db)
  else
    let db1 := crud.update_device_last_seen db now verified_device_orm.id
    match crud.get_student_by_tag_id db1 scan_data_tag_id with
    | some student_orm =>
      (.ok (_format_clearance_for_device_scan db1 student_orm), db1)
    | none =>
      (.error ⟨404, "Tag does not belong to a registered student for clearance check."⟩, db1)

/-- `submit_scanned_tag_endpoint` (src/routers/devices.py lines 119-210):
look up the device's active pending link (404 when none), re-check global tag
uniqueness (on conflict delete the pending link and re-raise), apply the link
through `update_student_tag_id`/`update_user_tag_id`, delete the consumed
pending link, touch last-seen.  A `None` from the update (target vanished)
hits the generic handler as a 500 in Python, kept as such. -/
def submit_scanned_tag_endpoint (db : DB) (now : Nat)
    (verified_device_orm : Device) (scanned_tag_id : String) :
    Except HTTPException String × DB :=
  let device_pk := verified_device_orm.id
  match crud.get_active_pending_tag_link_by_device_pk db now device_pk with
  | none => (.error ⟨404, "No active tag linking process for this device."⟩, db)
  | some pending_link_orm =>
    match crud.check_tag_id_globally_unique_for_target db scanned_tag_id with
    | .error e_tag_conflict =>
      (.error e_tag_conflict, (crud.delete_pending_tag_link db pending_link_orm.id).2)
    | .ok _ =>
      match pending_link_orm.target_user_type with
      | .STUDENT =>
        match crud.update_student_tag_id db pending_link_orm.target_identifier scanned_tag_id with
        | (.error e_update, db2) => (.error e_update, db2)
        | (.ok none, db2) =>
          (.error ⟨500, "An unexpected error occurred linking the tag."⟩, db2)
        | (.ok (some updated_student_orm), db2) =>
          let db3 := (crud.delete_pending_tag_link db2 pending_link_orm.id).2
          let db4 := crud.update_device_last_seen db3 now device_pk
          (.ok updated_student_orm.student_id, db4)
      | .STAFF_ADMIN =>
        match crud.update_user_tag_id db pending_link_orm.target_identifier scanned_tag_id with
        | (.error e_update, db2) => (.error e_update, db2)
        | (.ok none, db2) =>
          (.error ⟨500, "An unexpected error occurred linking the tag."⟩, db2)
        | (.ok (some updated_user_orm), db2) =>
          let db3 := (crud.delete_pending_tag_link db2 pending_link_orm.id).2
          let db4 := crud.update_device_last_seen db3 now device_pk
          (.ok updated_user_orm.username, db4)

end routers_devices

namespace routers_clearance

/-- `update_clearance_status_endpoint` (src/routers/clearance.py lines
19-52): 404 when the student is unknown, 403 when
`verify_department_access` refuses, else delegate to
`create_or_update_clearance_status`. -/
def update_clearance_status_endpoint (db : DB) (now : Nat)
    (current_user_orm : User) (status_data : ClearanceStatusCreate)
    (new_id : Nat) : Except HTTPException ClearanceStatus × DB :=
  match crud.get_student_by_student_id db status_data.student_id with
  | none => (.error ⟨404, "Student not found"⟩, db)
  | some _student_orm =>
    if !auth.verify_department_access current_user_orm.role
        current_user_orm.department status_data.department then
      (.error ⟨403, "User does not have permission to update clearance for this department."⟩, db)
    else
      let pair :=
        crud.create_or_update_clearance_status db now status_data
          (some current_user_orm.id) new_id
      (.ok pair.1, pair.2)

end routers_clearance

namespace routers_rfid

/-- The two possible success payloads of the rfid scan's fetching mode. -/
inductive RfidScanResult where
  | clearance (detail : ClearanceDetail)
  | profile (user : UserResponse)
deriving DecidableEq, Repr

/-- The fetching-mode branch of `handle_rfid_scan` (src/routers/rfid.py lines
64-82): look the tag up against students first, then users; a student yields
the full clearance detail, a staff/admin user yields the minimal
`UserResponse` profile, neither yields 404.  The clearance formatter it
imports (`src.utils.format_student_clearance_details`) is absent from the
repository, so the identically-shaped helper of the devices router stands in;
the tag lookups use the `tag_id`-column semantics of src/crud.py, the
repository's only complete variant of those lookups. -/
def handle_rfid_scan_fetching_mode (db : DB) (tag_id : String) :
    Except HTTPException RfidScanResult :=
  match crud.get_student_by_tag_id db tag_id with
  | some student =>
    .ok (.clearance (routers_devices._format_clearance_for_device_scan db student))
  | none =>
    match crud.get_user_by_tag_id db tag_id with
    | some user => .ok (.profile (UserResponse.from_orm user))
    | none => .error ⟨404, "Tag ID is not associated with any user."⟩

end routers_rfid

end ClearanceStud

namespace ClearanceStud

/-! Concrete fixtures used by the counterexamples and the witnesses. -/

/-- A student already holding tag "T1". -/
def exStudentT1 : Student :=
  ⟨1, "S1", "Student One", none, "CS", some "T1", true, 0⟩

/-- A student with no tag linked. -/
def exStudentFree : Student :=
  ⟨2, "S2", "Student Two", none, "CS", none, true, 0⟩

/-- A staff user scoped to the LIBRARY department, no tag linked. -/
def exBob : User :=
  ⟨10, "bob", UserRole.STAFF, some ClearanceDepartment.LIBRARY, none, true, 0⟩

/-- An admin user. -/
def exAlice : User :=
  ⟨1, "alice", UserRole.ADMIN, none, none, true, 0⟩

/-- An admin user holding tag "U1". -/
def exCarol : User :=
  ⟨11, "carol", UserRole.ADMIN, none, some "U1", true, 0⟩

/-- An active registered device with primary key 1 and api key "K1". -/
def exDevice : Device :=
  ⟨1, "D1", none, "K1", true, none⟩

/-- An unexpired pending link (expires at 100) binding device 1 to student
"S2". -/
def exLink : PendingTagLink :=
  ⟨1, 1, TargetUserType.STUDENT, "S2", 10, 0, 100⟩

/-- The src/crud.py-shaped twin of `exLink`, keyed by api key "K1". -/
def exApiKeyLink : ApiKeyPendingTagLink :=
  ⟨1, "K1", TargetUserType.STUDENT, "S2", 10, 100⟩

/-- A store where a student holds "T1" and user bob holds nothing. -/
def exC1db : DB :=
  ⟨[exStudentT1], [exBob], [], [], [], []⟩

/-- A store with one device, one unexpired pending link for it, and a
tagless target student. -/
def exSubmitDb : DB :=
  ⟨[exStudentFree], [exBob], [], [exDevice], [exLink], []⟩

/-- Like `exSubmitDb` but some other student already holds tag "T1". -/
def exConflictDb : DB :=
  ⟨[exStudentT1, exStudentFree], [exBob], [], [exDevice], [exLink], []⟩

/-- Like `exSubmitDb` on the src/crud.py side: an unexpired api-key-keyed
pending link for device "K1". -/
def exPrepareDb : DB :=
  ⟨[exStudentFree], [exBob], [], [exDevice], [], [exApiKeyLink]⟩

/-- A store where an admin user (carol) holds tag "U1" and no student holds
any tag. -/
def exScanDb : DB :=
  ⟨[], [exCarol], [], [exDevice], [], []⟩

/-- A store with exactly one admin (alice) and one staff user (bob). -/
def exAdminDb : DB :=
  ⟨[], [exAlice, exBob], [], [], [], []⟩

/-- An empty store. -/
def exEmptyDb : DB :=
  ⟨[], [], [], [], [], []⟩

/-- A creation payload for a fresh student "S9" with no tag. -/
def exNewStudent : StudentCreate :=
  ⟨"S9", "New Student", none, "CS", none⟩

end ClearanceStud

namespace ClearanceStud

/-! Helper lemmas shared by the claim theorems. -/

/-- The fold of `clearance_fold_step` yields `COMPLETED` exactly when it
started from `COMPLETED` and every folded row's status is `COMPLETED`. -/
theorem clearance_fold_step_foldl_completed
    (l : List ClearanceStatus) :
    ∀ acc : List ClearanceStatusItem × OverallClearanceStatusEnum,
      ((l.foldl routers_devices.clearance_fold_step acc).2 =
          OverallClearanceStatusEnum.COMPLETED ↔
        acc.2 = OverallClearanceStatusEnum.COMPLETED ∧
          ∀ r ∈ l, r.status = ClearanceStatusEnum.COMPLETED) := by
  induction l with
  | nil => intro acc; simp
  | cons x xs ih =>
    intro acc
    rw [List.foldl_cons, ih]
    constructor
    · rintro ⟨hstep, hall⟩
      by_cases hx : x.status = ClearanceStatusEnum.COMPLETED
      · refine ⟨?_, ?_⟩
        · simpa [routers_devices.clearance_fold_step, hx] using hstep
        · intro r hr
          rcases List.mem_cons.mp hr with h | h
          · exact h ▸ hx
          · exact hall r h
      · exfalso
        simp [routers_devices.clearance_fold_step, hx] at hstep
    · rintro ⟨hacc, hall⟩
      have hx : x.status = ClearanceStatusEnum.COMPLETED := hall x (List.mem_cons_self x xs)
      exact ⟨by simp [routers_devices.clearance_fold_step, hx, hacc],
             fun r hr => hall r (List.mem_cons_of_mem x hr)⟩

/-- C6 (confirmed): for every list of clearance records, the overall status
computed by the device-scan formatter (src/routers/devices.py lines 41-59) is
`COMPLETED` exactly when the list is non-empty and every record's status is
`COMPLETED`; otherwise — in particular for the empty list and for any list
holding a non-completed record — it is `PENDING`. -/
theorem C6_compute_overall_status (statuses : List ClearanceStatus) :
    ((routers_devices.clearance_items_and_overall statuses).2 =
        OverallClearanceStatusEnum.COMPLETED ↔
      statuses ≠ [] ∧ ∀ r ∈ statuses, r.status = ClearanceStatusEnum.COMPLETED) ∧
    ((routers_devices.clearance_items_and_overall statuses).2 =
        OverallClearanceStatusEnum.PENDING ↔
      ¬(statuses ≠ [] ∧ ∀ r ∈ statuses, r.status = ClearanceStatusEnum.COMPLETED)) := by
  have hmain :
      (routers_devices.clearance_items_and_overall statuses).2 =
          OverallClearanceStatusEnum.COMPLETED ↔
        statuses ≠ [] ∧ ∀ r ∈ statuses, r.status = ClearanceStatusEnum.COMPLETED := by
    cases statuses with
    | nil => simp [routers_devices.clearance_items_and_overall]
    | cons x xs =>
      have h := clearance_fold_step_foldl_completed (x :: xs)
        ([], OverallClearanceStatusEnum.COMPLETED)
      constructor
      · intro hco
        refine ⟨by simp, ?_⟩
        have : ((x :: xs).foldl routers_devices.clearance_fold_step
            ([], OverallClearanceStatusEnum.COMPLETED)).2 =
            OverallClearanceStatusEnum.COMPLETED := by
          simpa [routers_devices.clearance_items_and_overall] using hco
        exact (h.mp this).2
      · rintro ⟨-, hall⟩
        have : ((x :: xs).foldl routers_devices.clearance_fold_step
            ([], OverallClearanceStatusEnum.COMPLETED)).2 =
            OverallClearanceStatusEnum.COMPLETED := h.mpr ⟨rfl, hall⟩
        simpa [routers_devices.clearance_items_and_overall] using this
  refine ⟨hmain, ?_⟩
  constructor
  · intro hpend hcond
    have := hmain.mpr hcond
    rw [this] at hpend
    exact OverallClearanceStatusEnum.noConfusion hpend
  · intro hcond
    cases hval : (routers_devices.clearance_items_and_overall statuses).2 with
    | COMPLETED => exact absurd (hmain.mp hval) hcond
    | PENDING => rfl

/-- C7 (confirmed): `verify_department_access` (src/auth.py lines 196-205)
grants every admin, grants staff exactly when their department equals the
target, and denies every other role; consequently the clearance-update
endpoint rejects with 403 a LIBRARY-scoped staff user upserting for BURSARY
while an admin's upsert is never rejected with 403 and succeeds whenever the
student exists. -/
theorem C7_department_scope_check :
    (∀ (ud : Option ClearanceDepartment) (td : ClearanceDepartment),
        auth.verify_department_access UserRole.ADMIN ud td = true) ∧
    (∀ (ud : Option ClearanceDepartment) (td : ClearanceDepartment),
        auth.verify_department_access UserRole.STAFF ud td = true ↔ ud = some td) ∧
    (∀ (r : UserRole) (ud : Option ClearanceDepartment) (td : ClearanceDepartment),
        r ≠ UserRole.ADMIN → r ≠ UserRole.STAFF →
        auth.verify_department_access r ud td = false) ∧
    (∀ (db : DB) (now : Nat) (u : User) (sd : ClearanceStatusCreate) (new_id : Nat),
        (crud.get_student_by_student_id db sd.student_id).isSome = true →
        u.role = UserRole.STAFF →
        u.department = some ClearanceDepartment.LIBRARY →
        sd.department = ClearanceDepartment.BURSARY →
        routers_clearance.update_clearance_status_endpoint db now u sd new_id =
          (.error ⟨403, "User does not have permission to update clearance for this department."⟩, db)) ∧
    (∀ (db : DB) (now : Nat) (u : User) (sd : ClearanceStatusCreate) (new_id : Nat),
        (crud.get_student_by_student_id db sd.student_id).isSome = true →
        u.role = UserRole.ADMIN →
        ∃ row db2,
          routers_clearance.update_clearance_status_endpoint db now u sd new_id =
            (.ok row, db2)) := by
  refine ⟨?_, ?_, ?_, ?_, ?_⟩
  · intro ud td; rfl
  · intro ud td; simp [auth.verify_department_access]
  · intro r ud td hA hS
    cases r with
    | STUDENT => rfl
    | STAFF => exact absurd rfl hS
    | ADMIN => exact absurd rfl hA
  · intro db now u sd new_id hstu hrole hdept htarget
    obtain ⟨s, hs⟩ := Option.isSome_iff_exists.mp hstu
    simp [routers_clearance.update_clearance_status_endpoint, hs,
      auth.verify_department_access, hrole, hdept, htarget]
  · intro db now u sd new_id hstu hrole
    obtain ⟨s, hs⟩ := Option.isSome_iff_exists.mp hstu
    refine ⟨(crud.create_or_update_clearance_status db now sd (some u.id) new_id).1,
            (crud.create_or_update_clearance_status db now sd (some u.id) new_id).2, ?_⟩
    simp [routers_clearance.update_clearance_status_endpoint, hs,
      auth.verify_department_access, hrole]

end ClearanceStud

namespace ClearanceStud

/-- C1 counterexample: in `exC1db` student "S1" already holds tag "T1", yet
`crud.users.update_user_tag_id` (src/crud/users.py lines 37-62) — one of the
two tag-linking writes the claim quantifies over — accepts linking "T1" to
user "bob" instead of failing with Conflict, leaving the tag linked to a
student and a user at once. -/
theorem C1_counterexample :
    (exC1db.students.filter (fun s => s.tag_id == some "T1")).length = 1 ∧
    (crud_users.update_user_tag_id exC1db "bob" "T1").1.isOk = true ∧
    ((crud_users.update_user_tag_id exC1db "bob" "T1").2.users.filter
        (fun u => u.tag_id == some "T1")).length = 1 ∧
    ((crud_users.update_user_tag_id exC1db "bob" "T1").2.students.filter
        (fun s => s.tag_id == some "T1")).length = 1 := by
  decide

/-- C1 (corrected): the src/crud.py tag-linking writes (lines 379-402) do
check both tables through `is_tag_id_unique` and fail 409 Conflict without
mutating anything whenever any student or user holds the tag; the
src/crud/users.py `update_user_tag_id` checks only the users table — a tag
held by another user is rejected (with 400, not 409) and the store is left
unchanged, but a tag held only by a student is accepted and linked. -/
theorem C1_tag_uniqueness_amended :
    (∀ (db : DB) (sid tag : String),
        ((∃ u ∈ db.users, u.tag_id = some tag) ∨
         (∃ s ∈ db.students, s.tag_id = some tag)) →
        crud.update_student_tag_id db sid tag =
          (.error ⟨409, "Tag ID already in use by another user or student."⟩, db)) ∧
    (∀ (db : DB) (un tag : String),
        ((∃ u ∈ db.users, u.tag_id = some tag) ∨
         (∃ s ∈ db.students, s.tag_id = some tag)) →
        crud.update_user_tag_id db un tag =
          (.error ⟨409, "Tag ID already in use by another user or student."⟩, db)) ∧
    (∀ (db : DB) (un tag : String) (u : User),
        u ∈ db.users → u.tag_id = some tag →
        crud_users.update_user_tag_id db un tag =
          (.error ⟨400, "Tag ID is already assigned to another user."⟩, db)) ∧
    (∀ (db : DB) (un tag : String) (u0 : User),
        (∀ u ∈ db.users, u.tag_id ≠ some tag) →
        crud_users.get_user_by_username db un = some u0 →
        crud_users.update_user_tag_id db un tag =
          (.ok { u0 with tag_id := some tag },
           { db with users :=
              (updateFirst (fun u => u.username == un)
                (fun u => { u with tag_id := some tag }) db.users) })) := by
  have hfalse : ∀ (db : DB) (tag : String),
      ((∃ u ∈ db.users, u.tag_id = some tag) ∨
       (∃ s ∈ db.students, s.tag_id = some tag)) →
      crud.is_tag_id_unique db tag = false := by
    intro db tag h
    rcases h with ⟨u, hu, hut⟩ | ⟨s, hs, hst⟩
    · have : (db.users.find? (fun u => u.tag_id == some tag)).isSome := by
        exact List.find?_isSome.mpr ⟨u, hu, by simp [hut]⟩
      obtain ⟨a, ha⟩ := Option.isSome_iff_exists.mp this
      simp [crud.is_tag_id_unique, ha]
    · have : (db.students.find? (fun s => s.tag_id == some tag)).isSome := by
        exact List.find?_isSome.mpr ⟨s, hs, by simp [hst]⟩
      obtain ⟨a, ha⟩ := Option.isSome_iff_exists.mp this
      simp [crud.is_tag_id_unique, ha]
  refine ⟨?_, ?_, ?_, ?_⟩
  · intro db sid tag h
    simp [crud.update_student_tag_id, hfalse db tag h]
  · intro db un tag h
    simp [crud.update_user_tag_id, hfalse db tag h]
  · intro db un tag u hu hut
    have : (db.users.find? (fun u => u.tag_id == some tag)).isSome := by
      exact List.find?_isSome.mpr ⟨u, hu, by simp [hut]⟩
    obtain ⟨a, ha⟩ := Option.isSome_iff_exists.mp this
    simp [crud_users.update_user_tag_id, crud_users.get_user_by_tag_id, ha]
  · intro db un tag u0 hnone hfound
    have hn : db.users.find? (fun u => u.tag_id == some tag) = none := by
      rw [List.find?_eq_none]
      intro u hu
      simp [hnone u hu]
    simp [crud_users.update_user_tag_id, crud_users.get_user_by_tag_id, hn, hfound]

/-- C1 witness: the amended theorem applied to `exC1db`, where student "S1"
holds "T1": the src/crud.py student-side write fails 409 and changes
nothing. -/
theorem C1_tag_uniqueness_amended_witness :
    crud.update_student_tag_id exC1db "S2" "T1" =
      (.error ⟨409, "Tag ID already in use by another user or student."⟩, exC1db) :=
  C1_tag_uniqueness_amended.1 exC1db "S2" "T1"
    (Or.inr ⟨exStudentT1, by decide, by decide⟩)

end ClearanceStud

namespace ClearanceStud

/-- C2 counterexample: in `exSubmitDb` device 1 already has an unexpired
pending link at time 10, yet `crud.tag_linking.create_pending_tag_link`
(src/crud/tag_linking.py lines 9-27) — one of the two prepare variants the
claim quantifies over — succeeds and inserts a second link instead of
failing with Conflict, leaving two unexpired links for the same device. -/
theorem C2_counterexample :
    (exSubmitDb.pending_tag_links.filter
        (fun l => l.device_id_fk == exDevice.id && decide ((10 : Nat) < l.expires_at))).length = 1 ∧
    (tag_linking.create_pending_tag_link exSubmitDb 10 "D1"
        TargetUserType.STUDENT "S2" 10 200 2).1.isSome = true ∧
    ((tag_linking.create_pending_tag_link exSubmitDb 10 "D1"
        TargetUserType.STUDENT "S2" 10 200 2).2.pending_tag_links.filter
        (fun l => l.device_id_fk == exDevice.id && decide ((10 : Nat) < l.expires_at))).length = 2 := by
  decide

/-- C2 (corrected): the src/crud.py `create_pending_tag_link` (lines 423-464)
does enforce one in-flight link per device — with an unexpired link present
for the device's api key it fails 409 and inserts nothing, and once every
earlier link of that key has expired it succeeds and appends the new link;
the src/crud/tag_linking.py `create_pending_tag_link` performs no such check
and inserts unconditionally once the device resolves. -/
theorem C2_one_pending_link_per_device_amended :
    (∀ (db : DB) (now : Nat) (key tid : String) (uid mins nid : Nat)
        (d : Device) (s : Student),
        crud.get_device_by_api_key db key = some d →
        crud.get_student_by_student_id db tid = some s →
        s.tag_id = none →
        (∃ l ∈ db.api_key_pending_tag_links,
          l.device_api_key = key ∧ now < l.expires_at) →
        crud.create_pending_tag_link db now key TargetUserType.STUDENT tid uid mins nid =
          (.error ⟨409, "Device is already waiting for a tag scan for another user."⟩, db)) ∧
    (∀ (db : DB) (now : Nat) (key tid : String) (uid mins nid : Nat)
        (d : Device) (s : Student),
        crud.get_device_by_api_key db key = some d →
        crud.get_student_by_student_id db tid = some s →
        s.tag_id = none →
        (∀ l ∈ db.api_key_pending_tag_links,
          l.device_api_key = key → l.expires_at ≤ now) →
        crud.create_pending_tag_link db now key TargetUserType.STUDENT tid uid mins nid =
          (.ok ⟨nid, key, TargetUserType.STUDENT, tid, uid, now + mins * 60⟩,
           { db with api_key_pending_tag_links :=
              db.api_key_pending_tag_links ++
                [⟨nid, key, TargetUserType.STUDENT, tid, uid, now + mins * 60⟩] })) ∧
    (∀ (db : DB) (now : Nat) (devid tid : String) (uid exp nid : Nat) (d : Device),
        db.devices.find? (fun x => x.device_id == devid) = some d →
        tag_linking.create_pending_tag_link db now devid
            TargetUserType.STUDENT tid uid exp nid =
          (some ⟨nid, d.id, TargetUserType.STUDENT, tid, uid, now, exp⟩,
           { db with pending_tag_links :=
              db.pending_tag_links ++
                [⟨nid, d.id, TargetUserType.STUDENT, tid, uid, now, exp⟩] })) := by
  refine ⟨?_, ?_, ?_⟩
  · intro db now key tid uid mins nid d s hdev hstu htag hactive
    obtain ⟨l, hl, hlk, hlt⟩ := hactive
    have hsome : (db.api_key_pending_tag_links.find?
        (fun l => l.device_api_key == key && decide (now < l.expires_at))).isSome := by
      exact List.find?_isSome.mpr ⟨l, hl, by simp [hlk, hlt]⟩
    obtain ⟨a, ha⟩ := Option.isSome_iff_exists.mp hsome
    simp [crud.create_pending_tag_link, hdev, hstu, htag, ha]
  · intro db now key tid uid mins nid d s hdev hstu htag hexpired
    have hnone : db.api_key_pending_tag_links.find?
        (fun l => l.device_api_key == key && decide (now < l.expires_at)) = none := by
      rw [List.find?_eq_none]
      intro l hl
      by_cases hk : l.device_api_key = key
      · have := hexpired l hl hk
        simp [hk]
        omega
      · simp [hk]
    simp [crud.create_pending_tag_link, hdev, hstu, htag, hnone]
  · intro db now devid tid uid exp nid d hdev
    simp [tag_linking.create_pending_tag_link, hdev]

/-- C2 witness: the amended theorem applied to `exPrepareDb`, whose api-key
link for "K1" is unexpired at time 10 — the src/crud.py prepare fails 409
unchanged — and expired at time 100 — the same prepare then succeeds and
appends the new link. -/
theorem C2_one_pending_link_per_device_amended_witness :
    (crud.create_pending_tag_link exPrepareDb 10 "K1"
        TargetUserType.STUDENT "S2" 10 5 2 =
      (.error ⟨409, "Device is already waiting for a tag scan for another user."⟩,
       exPrepareDb)) ∧
    (crud.create_pending_tag_link exPrepareDb 100 "K1"
        TargetUserType.STUDENT "S2" 10 5 2 =
      (.ok ⟨2, "K1", TargetUserType.STUDENT, "S2", 10, 100 + 5 * 60⟩,
       { exPrepareDb with api_key_pending_tag_links :=
          exPrepareDb.api_key_pending_tag_links ++
            [⟨2, "K1", TargetUserType.STUDENT, "S2", 10, 100 + 5 * 60⟩] })) :=
  ⟨C2_one_pending_link_per_device_amended.1 exPrepareDb 10 "K1" "S2" 10 5 2
      exDevice exStudentFree (by decide) (by decide) (by decide)
      ⟨exApiKeyLink, by decide, by decide, by decide⟩,
   C2_one_pending_link_per_device_amended.2.1 exPrepareDb 100 "K1" "S2" 10 5 2
      exDevice exStudentFree (by decide) (by decide) (by decide) (by decide)⟩

end ClearanceStud

namespace ClearanceStud

/-- C9 counterexample: in `exScanDb` the admin user carol holds tag "U1" and
no student holds it, yet `scan_tag_endpoint` (src/routers/devices.py lines
69-116) fails 404 rather than returning a minimal user profile — the user
lookup there feeds only the device log. -/
theorem C9_counterexample :
    crud.get_user_by_tag_id exScanDb "U1" = some exCarol ∧
    crud.get_student_by_tag_id exScanDb "U1" = none ∧
    (routers_devices.scan_tag_endpoint exScanDb 0 exDevice "D1" "U1").1 =
      .error ⟨404, "Tag does not belong to a registered student for clearance check."⟩ :=
  ⟨by decide, by decide, rfl⟩

/-- C9 (corrected): the rfid router's scan (src/routers/rfid.py lines 64-82)
dispatches as claimed — student first (full clearance detail), then user
(minimal profile), else 404; the devices router's `scan_tag_endpoint`
(src/routers/devices.py lines 69-116) returns the clearance detail for a
student tag but fails 404 for every non-student tag, a staff/admin user's
included — there the user lookup only labels the device log. -/
theorem C9_scan_dispatch_amended :
    (∀ (db : DB) (tag : String) (s : Student),
        crud.get_student_by_tag_id db tag = some s →
        routers_rfid.handle_rfid_scan_fetching_mode db tag =
          .ok (.clearance (routers_devices._format_clearance_for_device_scan db s))) ∧
    (∀ (db : DB) (tag : String) (u : User),
        crud.get_student_by_tag_id db tag = none →
        crud.get_user_by_tag_id db tag = some u →
        routers_rfid.handle_rfid_scan_fetching_mode db tag =
          .ok (.profile (UserResponse.from_orm u))) ∧
    (∀ (db : DB) (tag : String),
        crud.get_student_by_tag_id db tag = none →
        crud.get_user_by_tag_id db tag = none →
        routers_rfid.handle_rfid_scan_fetching_mode db tag =
          .error ⟨404, "Tag ID is not associated with any user."⟩) ∧
    (∀ (db : DB) (now : Nat) (dev : Device) (tag : String) (s : Student),
        crud.get_student_by_tag_id db tag = some s →
        routers_devices.scan_tag_endpoint db now dev dev.device_id tag =
          (.ok (routers_devices._format_clearance_for_device_scan
                  (crud.update_device_last_seen db now dev.id) s),
           crud.update_device_last_seen db now dev.id)) ∧
    (∀ (db : DB) (now : Nat) (dev : Device) (tag : String),
        crud.get_student_by_tag_id db tag = none →
        routers_devices.scan_tag_endpoint db now dev dev.device_id tag =
          (.error ⟨404, "Tag does not belong to a registered student for clearance check."⟩,
           crud.update_device_last_seen db now dev.id)) := by
  have hframe : ∀ (db : DB) (now : Nat) (i : Nat) (tag : String),
      crud.get_student_by_tag_id (crud.update_device_last_seen db now i) tag =
        crud.get_student_by_tag_id db tag := by
    intro db now i tag
    rfl
  refine ⟨?_, ?_, ?_, ?_, ?_⟩
  · intro db tag s hs
    simp [routers_rfid.handle_rfid_scan_fetching_mode, hs]
  · intro db tag u hs hu
    simp [routers_rfid.handle_rfid_scan_fetching_mode, hs, hu]
  · intro db tag hs hu
    simp [routers_rfid.handle_rfid_scan_fetching_mode, hs, hu]
  · intro db now dev tag s hs
    have hs2 := (hframe db now dev.id tag).trans hs
    simp [routers_devices.scan_tag_endpoint, hs2]
  · intro db now dev tag hs
    have hs2 := (hframe db now dev.id tag).trans hs
    simp [routers_devices.scan_tag_endpoint, hs2]

/-- C9 witness: the amended theorem applied to `exScanDb`: the rfid scan of
carol's tag "U1" yields her minimal profile. -/
theorem C9_scan_dispatch_amended_witness :
    routers_rfid.handle_rfid_scan_fetching_mode exScanDb "U1" =
      .ok (.profile (UserResponse.from_orm exCarol)) :=
  C9_scan_dispatch_amended.2.1 exScanDb "U1" exCarol (by decide) (by decide)

end ClearanceStud

namespace ClearanceStud

/-- Counting through `removeFirst`: when `find?` locates `a`, the original
count along `q` is the count after removal plus `a`'s own contribution. -/
theorem countP_eq_countP_removeFirst (p q : α → Bool) :
    ∀ (xs : List α) (a : α), xs.find? p = some a →
      xs.countP q = (removeFirst p xs).countP q + (if q a then 1 else 0) := by
  intro xs
  induction xs with
  | nil => intro a h; simp at h
  | cons x xs ih =>
    intro a h
    by_cases hp : p x
    · rw [List.find?_cons_of_pos _ hp] at h
      cases h
      simp [removeFirst, hp, List.countP_cons]
    · rw [List.find?_cons_of_neg _ hp] at h
      have := ih a h
      simp [removeFirst, hp, List.countP_cons, this]
      omega

/-- C10 (confirmed): `delete_user` (src/crud/users.py lines 150-189) fails
403 when an admin names their own account, fails 403 when the named user is
an admin and at most one admin exists, and consequently never takes the
store from at least one admin to none. -/
theorem C10_delete_user_preserves_an_admin :
    (∀ (db : DB) (cu : User),
        crud_users.delete_user db cu.username cu =
          (.error ⟨403, "Admins cannot delete their own account."⟩, db)) ∧
    (∀ (db : DB) (name : String) (cu u : User),
        crud_users.get_user_by_username db name = some u →
        u.role = UserRole.ADMIN →
        (db.users.filter (fun x => x.role == UserRole.ADMIN)).length ≤ 1 →
        ∃ e : HTTPException,
          crud_users.delete_user db name cu = (.error e, db) ∧
          e.status_code = 403) ∧
    (∀ (db : DB) (name : String) (cu : User),
        1 ≤ (db.users.filter (fun x => x.role == UserRole.ADMIN)).length →
        1 ≤ ((crud_users.delete_user db name cu).2.users.filter
              (fun x => x.role == UserRole.ADMIN)).length) := by
  refine ⟨?_, ?_, ?_⟩
  · intro db cu
    simp [crud_users.delete_user]
  · intro db name cu u hfound hrole hcount
    by_cases hself : name = cu.username
    · exact ⟨⟨403, "Admins cannot delete their own account."⟩,
        by simp [crud_users.delete_user, hself], rfl⟩
    · refine ⟨⟨403, "Cannot delete the last remaining admin account."⟩, ?_, rfl⟩
      simp [crud_users.delete_user, hself, hfound, hrole, hcount]
  · intro db name cu hcount
    by_cases hself : name = cu.username
    · simpa [crud_users.delete_user, hself] using hcount
    · rcases hfound : crud_users.get_user_by_username db name with _ | u
      · simpa [crud_users.delete_user, hself, hfound] using hcount
      · have hfind : db.users.find? (fun x => x.username == name) = some u := hfound
        have hkey := countP_eq_countP_removeFirst
          (fun x => x.username == name) (fun x => x.role == UserRole.ADMIN)
          db.users u hfind
        rw [List.countP_eq_length_filter, List.countP_eq_length_filter] at hkey
        by_cases hrole : u.role = UserRole.ADMIN
        · by_cases hle : (db.users.filter (fun x => x.role == UserRole.ADMIN)).length ≤ 1
          · simpa [crud_users.delete_user, hself, hfound, hrole, hle] using hcount
          · have hres : (crud_users.delete_user db name cu).2.users =
                removeFirst (fun x => x.username == name) db.users := by
              simp [crud_users.delete_user, hself, hfound, hrole, hle]
            rw [hres]
            simp only [hrole] at hkey
            simp at hkey
            omega
        · have hres : (crud_users.delete_user db name cu).2.users =
              removeFirst (fun x => x.username == name) db.users := by
            simp [crud_users.delete_user, hself, hfound, hrole]
          rw [hres]
          have hq : ((fun x => x.role == UserRole.ADMIN) u) = false := by
            simp [hrole]
          rw [hq] at hkey
          simp at hkey
          omega
end ClearanceStud

namespace ClearanceStud

/-- What remains after removing the first row carrying `a`'s primary key:
under key-nodup every survivor is an original row other than `a`. -/
theorem mem_removeFirst_of_nodup_keys (a x : PendingTagLink) :
    ∀ xs : List PendingTagLink, (xs.map (fun y => y.id)).Nodup → a ∈ xs →
      x ∈ removeFirst (fun y => y.id == a.id) xs → x ∈ xs ∧ x ≠ a := by
  intro xs
  induction xs with
  | nil => intro _ ha _; cases ha
  | cons z zs ih =>
    intro hnd ha hx
    simp only [List.map_cons, List.nodup_cons] at hnd
    obtain ⟨hz, hnd2⟩ := hnd
    by_cases hid : z.id = a.id
    · have hx2 : x ∈ zs := by simpa [removeFirst, hid] using hx
      refine ⟨List.mem_cons_of_mem z hx2, ?_⟩
      intro hxa
      have haz : a = z := by
        rcases List.mem_cons.mp ha with h | h
        · exact h
        · have hmm : a.id ∈ zs.map (fun y => y.id) := by
            have := List.mem_map_of_mem (fun y => y.id) h
            simpa using this
          rw [hid] at hz
          exact absurd hmm hz
      rw [hxa, haz] at hx2
      have hmm : z.id ∈ zs.map (fun y => y.id) := by
        have := List.mem_map_of_mem (fun y => y.id) hx2
        simpa using this
      exact hz hmm
    · have hb : (fun y => y.id == a.id) z = false := by simp [hid]
      have hx2 : x = z ∨ x ∈ removeFirst (fun y => y.id == a.id) zs := by
        simpa [removeFirst, hb] using hx
      have ha2 : a ∈ zs := by
        rcases List.mem_cons.mp ha with h | h
        · exact absurd (by rw [h]) hid
        · exact h
      rcases hx2 with h | h
      · exact ⟨by rw [h]; exact List.mem_cons_self z zs,
               fun hxa => hid (by rw [← h, hxa])⟩
      · obtain ⟨hmem, hne⟩ := ih hnd2 ha2 h
        exact ⟨List.mem_cons_of_mem z hmem, hne⟩

/-- Under the exactly-one-active-link hypotheses, the active-link lookup of
the device returns that link. -/
theorem get_active_eq_some_of_unique
    (db : DB) (now : Nat) (pk : Nat) (l : PendingTagLink)
    (hmem : l ∈ db.pending_tag_links)
    (hdev : l.device_id_fk = pk)
    (hact : now < l.expires_at)
    (huniq : ∀ x ∈ db.pending_tag_links,
      x.device_id_fk = pk → now < x.expires_at → x = l) :
    crud.get_active_pending_tag_link_by_device_pk db now pk = some l := by
  unfold crud.get_active_pending_tag_link_by_device_pk
  have hsome : (db.pending_tag_links.find?
      (fun x => x.device_id_fk == pk && decide (now < x.expires_at))).isSome :=
    List.find?_isSome.mpr ⟨l, hmem, by simp [hdev, hact]⟩
  obtain ⟨a, ha⟩ := Option.isSome_iff_exists.mp hsome
  have hpa := List.find?_some ha
  simp only [Bool.and_eq_true, beq_iff_eq, decide_eq_true_eq] at hpa
  rw [ha, huniq a (List.mem_of_find?_eq_some ha) hpa.1 hpa.2]

/-- A submit with no active pending link for the device fails 404 and leaves
the store untouched. -/
theorem submit_eq_of_no_active_link
    (db : DB) (now : Nat) (dev : Device) (tag : String)
    (h : crud.get_active_pending_tag_link_by_device_pk db now dev.id = none) :
    routers_devices.submit_scanned_tag_endpoint db now dev tag =
      (.error ⟨404, "No active tag linking process for this device."⟩, db) := by
  simp [routers_devices.submit_scanned_tag_endpoint, h]

/-- The update of a student's tag touches only the students table. -/
theorem update_student_tag_id_frame (db : DB) (sid tag : String) :
    (crud.update_student_tag_id db sid tag).2.pending_tag_links = db.pending_tag_links ∧
    (crud.update_student_tag_id db sid tag).2.users = db.users ∧
    (crud.update_student_tag_id db sid tag).2.devices = db.devices := by
  unfold crud.update_student_tag_id
  split
  · exact ⟨rfl, rfl, rfl⟩
  · split <;> exact ⟨rfl, rfl, rfl⟩

/-- The update of a user's tag touches only the users table. -/
theorem update_user_tag_id_frame (db : DB) (un tag : String) :
    (crud.update_user_tag_id db un tag).2.pending_tag_links = db.pending_tag_links ∧
    (crud.update_user_tag_id db un tag).2.students = db.students ∧
    (crud.update_user_tag_id db un tag).2.devices = db.devices := by
  unfold crud.update_user_tag_id
  split
  · exact ⟨rfl, rfl, rfl⟩
  · split <;> exact ⟨rfl, rfl, rfl⟩

/-- When the pending link with key `i` exists, its deletion removes exactly
the first row with that key and nothing else. -/
theorem delete_pending_tag_link_found (db : DB) (i : Nat)
    (h : (db.pending_tag_links.find? (fun x => x.id == i)).isSome) :
    (crud.delete_pending_tag_link db i).2 =
      { db with pending_tag_links :=
          (removeFirst (fun x => x.id == i) db.pending_tag_links) } := by
  obtain ⟨a, ha⟩ := Option.isSome_iff_exists.mp h
  simp [crud.delete_pending_tag_link, ha]

/-- After the device's unique active link is removed, the active-link lookup
finds nothing. -/
theorem get_active_none_after_removeFirst
    (db : DB) (now : Nat) (pk : Nat) (l : PendingTagLink)
    (hmem : l ∈ db.pending_tag_links)
    (huniq : ∀ x ∈ db.pending_tag_links,
      x.device_id_fk = pk → now < x.expires_at → x = l)
    (hnd : (db.pending_tag_links.map (fun x => x.id)).Nodup)
    (db2 : DB)
    (hdb2 : db2.pending_tag_links =
      removeFirst (fun x => x.id == l.id) db.pending_tag_links) :
    crud.get_active_pending_tag_link_by_device_pk db2 now pk = none := by
  unfold crud.get_active_pending_tag_link_by_device_pk
  rw [hdb2, List.find?_eq_none]
  intro x hx
  obtain ⟨hmem2, hne⟩ := mem_removeFirst_of_nodup_keys l x db.pending_tag_links hnd hmem hx
  simp only [Bool.and_eq_true, beq_iff_eq, decide_eq_true_eq, not_and]
  intro hd ht
  exact hne (huniq x hmem2 hd ht)

/-- C5 (confirmed): a submit by an authenticated device with no unexpired
pending link fails 404 and returns the store unchanged — in particular no
student or user tag field is modified (src/routers/devices.py lines 128-139
over the spec-modelled active-link lookup). -/
theorem C5_submit_without_active_link
    (db : DB) (now : Nat) (dev : Device) (tag : String)
    (h : ∀ l ∈ db.pending_tag_links, l.device_id_fk = dev.id → l.expires_at ≤ now) :
    routers_devices.submit_scanned_tag_endpoint db now dev tag =
      (.error ⟨404, "No active tag linking process for this device."⟩, db) := by
  apply submit_eq_of_no_active_link
  unfold crud.get_active_pending_tag_link_by_device_pk
  rw [List.find?_eq_none]
  intro l hl
  simp only [Bool.and_eq_true, beq_iff_eq, decide_eq_true_eq, not_and]
  intro hd
  have := h l hl hd
  omega

/-- C5 witness: `C5_submit_without_active_link` at `exScanDb`, which has no
pending links at all. -/
theorem C5_submit_without_active_link_witness :
    routers_devices.submit_scanned_tag_endpoint exScanDb 0 exDevice "T1" =
      (.error ⟨404, "No active tag linking process for this device."⟩, exScanDb) :=
  C5_submit_without_active_link exScanDb 0 exDevice "T1" (by decide)

end ClearanceStud

namespace ClearanceStud

/-- C3 (confirmed): when a device holds exactly one still-valid pending link
(primary keys distinct, as the database guarantees) and its submit succeeds,
the consumed link is gone from the store, the device no longer has an active
link, and an immediately repeated submit fails 404
(src/routers/devices.py lines 119-210 over the spec-modelled lookup). -/
theorem C3_submit_consumes_pending_link
    (db : DB) (now : Nat) (dev : Device) (tag : String)
    (l : PendingTagLink) (msg : String)
    (hmem : l ∈ db.pending_tag_links)
    (hdev : l.device_id_fk = dev.id)
    (hact : now < l.expires_at)
    (huniq : ∀ x ∈ db.pending_tag_links,
      x.device_id_fk = dev.id → now < x.expires_at → x = l)
    (hnd : (db.pending_tag_links.map (fun x => x.id)).Nodup)
    (hok : (routers_devices.submit_scanned_tag_endpoint db now dev tag).1 = .ok msg) :
    l ∉ (routers_devices.submit_scanned_tag_endpoint db now dev tag).2.pending_tag_links ∧
    crud.get_active_pending_tag_link_by_device_pk
      (routers_devices.submit_scanned_tag_endpoint db now dev tag).2 now dev.id = none ∧
    (routers_devices.submit_scanned_tag_endpoint
        (routers_devices.submit_scanned_tag_endpoint db now dev tag).2 now dev tag).1 =
      .error ⟨404, "No active tag linking process for this device."⟩ := by
  have hfind := get_active_eq_some_of_unique db now dev.id l hmem hdev hact huniq
  have hpend : (routers_devices.submit_scanned_tag_endpoint db now dev tag).2.pending_tag_links =
      removeFirst (fun x => x.id == l.id) db.pending_tag_links := by
    cases hchk : crud.check_tag_id_globally_unique_for_target db tag with
    | error e =>
      have hr : routers_devices.submit_scanned_tag_endpoint db now dev tag =
          (.error e, (crud.delete_pending_tag_link db l.id).2) := by
        simp [routers_devices.submit_scanned_tag_endpoint, hfind, hchk]
      rw [hr] at hok
      exact absurd hok (by simp)
    | ok u =>
      cases htt : l.target_user_type with
      | STUDENT =>
        cases hupd : crud.update_student_tag_id db l.target_identifier tag with
        | mk res db2 =>
          have hdb2p : db2.pending_tag_links = db.pending_tag_links := by
            have hfr := (update_student_tag_id_frame db l.target_identifier tag).1
            rw [hupd] at hfr
            exact hfr
          cases res with
          | error e =>
            have hr : routers_devices.submit_scanned_tag_endpoint db now dev tag =
                (.error e, db2) := by
              simp [routers_devices.submit_scanned_tag_endpoint, hfind, hchk, htt, hupd]
            rw [hr] at hok
            exact absurd hok (by simp)
          | ok os =>
            cases os with
            | none =>
              have hr : routers_devices.submit_scanned_tag_endpoint db now dev tag =
                  (.error ⟨500, "An unexpected error occurred linking the tag."⟩, db2) := by
                simp [routers_devices.submit_scanned_tag_endpoint, hfind, hchk, htt, hupd]
              rw [hr] at hok
              exact absurd hok (by simp)
            | some stu =>
              have hr : routers_devices.submit_scanned_tag_endpoint db now dev tag =
                  (.ok stu.student_id,
                   crud.update_device_last_seen
                     (crud.delete_pending_tag_link db2 l.id).2 now dev.id) := by
                simp [routers_devices.submit_scanned_tag_endpoint, hfind, hchk, htt, hupd]
              have hlsome : (db2.pending_tag_links.find? (fun x => x.id == l.id)).isSome := by
                rw [hdb2p]
                exact List.find?_isSome.mpr ⟨l, hmem, by simp⟩
              have hdel := delete_pending_tag_link_found db2 l.id hlsome
              rw [hr]
              show (crud.delete_pending_tag_link db2 l.id).2.pending_tag_links = _
              rw [hdel, ← hdb2p]
      | STAFF_ADMIN =>
        cases hupd : crud.update_user_tag_id db l.target_identifier tag with
        | mk res db2 =>
          have hdb2p : db2.pending_tag_links = db.pending_tag_links := by
            have hfr := (update_user_tag_id_frame db l.target_identifier tag).1
            rw [hupd] at hfr
            exact hfr
          cases res with
          | error e =>
            have hr : routers_devices.submit_scanned_tag_endpoint db now dev tag =
                (.error e, db2) := by
              simp [routers_devices.submit_scanned_tag_endpoint, hfind, hchk, htt, hupd]
            rw [hr] at hok
            exact absurd hok (by simp)
          | ok os =>
            cases os with
            | none =>
              have hr : routers_devices.submit_scanned_tag_endpoint db now dev tag =
                  (.error ⟨500, "An unexpected error occurred linking the tag."⟩, db2) := by
                simp [routers_devices.submit_scanned_tag_endpoint, hfind, hchk, htt, hupd]
              rw [hr] at hok
              exact absurd hok (by simp)
            | some usr =>
              have hr : routers_devices.submit_scanned_tag_endpoint db now dev tag =
                  (.ok usr.username,
                   crud.update_device_last_seen
                     (crud.delete_pending_tag_link db2 l.id).2 now dev.id) := by
                simp [routers_devices.submit_scanned_tag_endpoint, hfind, hchk, htt, hupd]
              have hlsome : (db2.pending_tag_links.find? (fun x => x.id == l.id)).isSome := by
                rw [hdb2p]
                exact List.find?_isSome.mpr ⟨l, hmem, by simp⟩
              have hdel := delete_pending_tag_link_found db2 l.id hlsome
              rw [hr]
              show (crud.delete_pending_tag_link db2 l.id).2.pending_tag_links = _
              rw [hdel, ← hdb2p]
  have hnoact := get_active_none_after_removeFirst db now dev.id l hmem huniq hnd
    (routers_devices.submit_scanned_tag_endpoint db now dev tag).2 hpend
  refine ⟨?_, hnoact, ?_⟩
  · rw [hpend]
    intro hmem2
    exact (mem_removeFirst_of_nodup_keys l l db.pending_tag_links hnd hmem hmem2).2 rfl
  · rw [submit_eq_of_no_active_link _ now dev tag hnoact]

/-- C3 witness: in `exSubmitDb` device 1 holds exactly the still-valid link
`exLink`; its submit of tag "T9" succeeds with target "S2", and the consumed
link is gone. -/
theorem C3_submit_consumes_pending_link_witness :
    exLink ∉ (routers_devices.submit_scanned_tag_endpoint
      exSubmitDb 10 exDevice "T9").2.pending_tag_links :=
  (C3_submit_consumes_pending_link exSubmitDb 10 exDevice "T9" exLink "S2"
    (by decide) (by decide) (by decide) (by decide) (by decide) rfl).1

/-- C4 (confirmed): a submit whose device holds exactly one still-valid
pending link but whose scanned tag already belongs to some student or user
fails 409, deletes that pending link (only the pending table changes, so no
tag is linked), and leaves the device with no queryable active link
(src/routers/devices.py lines 141-162 over the spec-modelled uniqueness
check). -/
theorem C4_submit_tag_conflict_fail_closed
    (db : DB) (now : Nat) (dev : Device) (tag : String) (l : PendingTagLink)
    (hmem : l ∈ db.pending_tag_links)
    (hdev : l.device_id_fk = dev.id)
    (hact : now < l.expires_at)
    (huniq : ∀ x ∈ db.pending_tag_links,
      x.device_id_fk = dev.id → now < x.expires_at → x = l)
    (hnd : (db.pending_tag_links.map (fun x => x.id)).Nodup)
    (hconf : (∃ s ∈ db.students, s.tag_id = some tag) ∨
             (∃ u ∈ db.users, u.tag_id = some tag)) :
    routers_devices.submit_scanned_tag_endpoint db now dev tag =
      (.error ⟨409, "Tag ID already in use."⟩,
       { db with pending_tag_links :=
          (removeFirst (fun x => x.id == l.id) db.pending_tag_links) }) ∧
    crud.get_active_pending_tag_link_by_device_pk
      (routers_devices.submit_scanned_tag_endpoint db now dev tag).2 now dev.id = none ∧
    (routers_devices.submit_scanned_tag_endpoint db now dev tag).2.students = db.students ∧
    (routers_devices.submit_scanned_tag_endpoint db now dev tag).2.users = db.users := by
  have hfind := get_active_eq_some_of_unique db now dev.id l hmem hdev hact huniq
  have hchk : crud.check_tag_id_globally_unique_for_target db tag =
      .error ⟨409, "Tag ID already in use."⟩ := by
    rcases hconf with ⟨s, hs, hst⟩ | ⟨u, hu, hut⟩
    · have hsome : (db.students.find? (fun s => s.tag_id == some tag)).isSome :=
        List.find?_isSome.mpr ⟨s, hs, by simp [hst]⟩
      obtain ⟨a, ha⟩ := Option.isSome_iff_exists.mp hsome
      simp [crud.check_tag_id_globally_unique_for_target, ha]
    · have hsome : (db.users.find? (fun u => u.tag_id == some tag)).isSome :=
        List.find?_isSome.mpr ⟨u, hu, by simp [hut]⟩
      obtain ⟨a, ha⟩ := Option.isSome_iff_exists.mp hsome
      simp [crud.check_tag_id_globally_unique_for_target, ha]
  have hlsome : (db.pending_tag_links.find? (fun x => x.id == l.id)).isSome :=
    List.find?_isSome.mpr ⟨l, hmem, by simp⟩
  have hdel := delete_pending_tag_link_found db l.id hlsome
  have hr : routers_devices.submit_scanned_tag_endpoint db now dev tag =
      (.error ⟨409, "Tag ID already in use."⟩,
       (crud.delete_pending_tag_link db l.id).2) := by
    simp [routers_devices.submit_scanned_tag_endpoint, hfind, hchk]
  have hpend : (routers_devices.submit_scanned_tag_endpoint db now dev tag).2.pending_tag_links =
      removeFirst (fun x => x.id == l.id) db.pending_tag_links := by
    rw [hr]
    show (crud.delete_pending_tag_link db l.id).2.pending_tag_links = _
    rw [hdel]
  refine ⟨?_, ?_, ?_, ?_⟩
  · rw [hr, hdel]
  · exact get_active_none_after_removeFirst db now dev.id l hmem huniq hnd
      (routers_devices.submit_scanned_tag_endpoint db now dev tag).2 hpend
  · rw [hr, hdel]
  · rw [hr, hdel]

/-- C4 witness: in `exConflictDb` tag "T1" already belongs to student "S1";
the submit by device 1 fails 409 and removes the pending link. -/
theorem C4_submit_tag_conflict_fail_closed_witness :
    routers_devices.submit_scanned_tag_endpoint exConflictDb 10 exDevice "T1" =
      (.error ⟨409, "Tag ID already in use."⟩,
       { exConflictDb with pending_tag_links :=
          (removeFirst (fun x => x.id == exLink.id) exConflictDb.pending_tag_links) }) :=
  (C4_submit_tag_conflict_fail_closed exConflictDb 10 exDevice "T1" exLink
    (by decide) (by decide) (by decide) (by decide) (by decide)
    (Or.inl ⟨exStudentT1, by decide, by decide⟩)).1

end ClearanceStud

namespace ClearanceStud

/-- C8 (confirmed): for a student with no pre-existing clearance rows,
`create_student` (src/crud.py lines 19-36 with
src/database.py lines 132-147) leaves exactly one clearance record per
department of the enumeration, and every clearance record of that student
has status `NOT_COMPLETED`. -/
theorem C8_create_student_initializes_clearance
    (db : DB) (now : Nat) (sc : StudentCreate) (pk fid : Nat)
    (h : ∀ c ∈ db.clearance_statuses, c.student_id ≠ sc.student_id) :
    (∀ d : ClearanceDepartment,
      ((crud.create_student db now sc pk fid).2.clearance_statuses.filter
        (fun c => c.student_id == sc.student_id && c.department == d)).length = 1) ∧
    (∀ c ∈ (crud.create_student db now sc pk fid).2.clearance_statuses,
        c.student_id = sc.student_id → c.status = ClearanceStatusEnum.NOT_COMPLETED) := by
  have hcl : (crud.create_student db now sc pk fid).2.clearance_statuses =
      db.clearance_statuses ++
        [database.clearance_row now sc.student_id ClearanceDepartment.DEPARTMENTAL fid,
         database.clearance_row now sc.student_id ClearanceDepartment.LIBRARY (fid + 1),
         database.clearance_row now sc.student_id ClearanceDepartment.BURSARY (fid + 2),
         database.clearance_row now sc.student_id ClearanceDepartment.ALUMNI (fid + 3)] := rfl
  constructor
  · intro d
    have hold : db.clearance_statuses.filter
        (fun c => c.student_id == sc.student_id && c.department == d) = [] := by
      rw [List.filter_eq_nil_iff]
      intro c hc
      simp [h c hc]
    rw [hcl, List.filter_append, hold]
    cases d <;> simp [database.clearance_row]
  · intro c hc hcs
    rw [hcl] at hc
    rcases List.mem_append.mp hc with hmem | hmem
    · exact absurd hcs (h c hmem)
    · simp only [List.mem_cons, List.not_mem_nil, or_false] at hmem
      rcases hmem with h1 | h1 | h1 | h1 <;> rw [h1] <;> rfl

/-- C8 witness: creating "S9" in the empty store yields exactly one LIBRARY
clearance record for "S9". -/
theorem C8_create_student_initializes_clearance_witness :
    ((crud.create_student exEmptyDb 0 exNewStudent 1 1).2.clearance_statuses.filter
      (fun c => c.student_id == exNewStudent.student_id &&
                c.department == ClearanceDepartment.LIBRARY)).length = 1 :=
  (C8_create_student_initializes_clearance exEmptyDb 0 exNewStudent 1 1
    (by decide)).1 ClearanceDepartment.LIBRARY

end ClearanceStud

namespace ClearanceStud

/-- C6 witness: the empty record set computes to overall `PENDING`. -/
theorem C6_compute_overall_status_witness :
    (routers_devices.clearance_items_and_overall []).2 =
      OverallClearanceStatusEnum.PENDING :=
  (C6_compute_overall_status []).2.mpr (by simp)

/-- C7 witness: LIBRARY-scoped staff bob upserting BURSARY clearance for the
existing student "S1" is rejected 403 with the store unchanged. -/
theorem C7_department_scope_check_witness :
    routers_clearance.update_clearance_status_endpoint exC1db 0 exBob
      ⟨"S1", ClearanceDepartment.BURSARY, ClearanceStatusEnum.COMPLETED, none⟩ 1 =
      (.error ⟨403, "User does not have permission to update clearance for this department."⟩,
       exC1db) :=
  C7_department_scope_check.2.2.2.1 exC1db 0 exBob
    ⟨"S1", ClearanceDepartment.BURSARY, ClearanceStatusEnum.COMPLETED, none⟩ 1
    (by decide) rfl rfl rfl

/-- C10 witness: alice, the sole admin of `exAdminDb`, cannot delete her own
account. -/
theorem C10_delete_user_preserves_an_admin_witness :
    crud_users.delete_user exAdminDb "alice" exAlice =
      (.error ⟨403, "Admins cannot delete their own account."⟩, exAdminDb) :=
  C10_delete_user_preserves_an_admin.1 exAdminDb exAlice

end ClearanceStud
